import Mathlib

/-! Shallow embedding of the luminance tessellation builder, tessellation
views and the staged gate protocol, translated from
`src/luminance/src/tess.rs`, `src/luminance/src/shading_gate.rs` and
`src/luminance/src/context.rs`. Machine integers (`usize`) are modelled as
`Nat`; the source only compares and copies them, so no overflow arithmetic
occurs on the modelled paths. Fallible Rust functions returning
`Result<T, E>` become `Except E T`. Backend calls (out of scope for the
core) are abstracted as explicit function parameters or, for the gate
protocol, as an event log. -/

namespace Luminance

/-- Primitive mode (`Mode` in tess.rs). -/
inductive Mode where
  | Point
  | Line
  | LineStrip
  | Triangle
  | TriangleFan
  | TriangleStrip
  | Patch (n : Nat)
  deriving DecidableEq

/-- Errors occurring while building a `Tess` (`TessError` in tess.rs). -/
inductive TessError where
  | CannotCreate (msg : String)
  | AttributelessError (msg : String)
  | LengthIncoherency (len : Nat)
  | ForbiddenPrimitiveMode (mode : Mode)
  | NoData
  deriving DecidableEq

/-- One deinterleaved attribute column (`DeinterleavedData` in tess.rs): the
raw bytes of that column and its element count. -/
structure DeinterleavedData where
  raw : List Nat
  len : Nat
  deriving DecidableEq

/-- `DeinterleavedData::new`: an empty column. -/
def DeinterleavedData.new : DeinterleavedData :=
  { raw := [], len := 0 }

/-- Coherent length of an interleaved vertex set
(`impl TessVertexData<Interleaved> for V`, tess.rs): simply the length of
the vector of vertices. -/
def Interleaved.coherent_len {V : Type} (data : List V) : Except TessError Nat :=
  .ok data.length

/-- Coherent length of a deinterleaved vertex set
(`impl TessVertexData<Deinterleaved> for V`, tess.rs): the common element
count of all columns, or `LengthIncoherency` with the first column's length
when a later column disagrees with the first one. -/
def Deinterleaved.coherent_len (data : List DeinterleavedData) : Except TessError Nat :=
  match data with
  | [] => .ok 0
  | d :: rest =>
      if rest.any (fun a => a.len != d.len) then
        .error (.LengthIncoherency d.len)
      else
        .ok d.len

/-- The tessellation builder (`TessBuilder` in tess.rs). `VData` stands for
`V::Data`, `WData` for `W::Data` and `I` for the index type; the backend
borrow is dropped (the backend enters only at `build`, where it is passed
explicitly). -/
structure TessBuilder (VData I WData : Type) where
  vertex_data : Option VData
  index_data : List I
  instance_data : Option WData
  mode : Mode
  render_vert_nb : Nat
  render_inst_nb : Nat
  restart_index : Option I

/-- `TessBuilder::new`: no vertex data, no indices, no instance data,
`Mode::Point`, both render counts zero, no restart index. -/
def TessBuilder.new (VData I WData : Type) : TessBuilder VData I WData where
  vertex_data := none
  index_data := []
  instance_data := none
  mode := .Point
  render_vert_nb := 0
  render_inst_nb := 0
  restart_index := none

/-- `TessBuilder::set_mode`. -/
def TessBuilder.set_mode {VData I WData : Type} (b : TessBuilder VData I WData)
    (mode : Mode) : TessBuilder VData I WData :=
  { b with mode := mode }

/-- `TessBuilder::set_render_vertex_nb`. -/
def TessBuilder.set_render_vertex_nb {VData I WData : Type} (b : TessBuilder VData I WData)
    (vert_nb : Nat) : TessBuilder VData I WData :=
  { b with render_vert_nb := vert_nb }

/-- `TessBuilder::set_render_instance_nb`. -/
def TessBuilder.set_render_instance_nb {VData I WData : Type} (b : TessBuilder VData I WData)
    (inst_nb : Nat) : TessBuilder VData I WData :=
  { b with render_inst_nb := inst_nb }

/-- `TessBuilder::set_primitive_restart_index`. -/
def TessBuilder.set_primitive_restart_index {VData I WData : Type}
    (b : TessBuilder VData I WData) (restart_index : I) : TessBuilder VData I WData :=
  { b with restart_index := some restart_index }

/-- `TessBuilder::set_indices`: only available while the index type is still
the unit marker; builds a new builder with the given indices, every other
field carried over, and `restart_index` reset to `None`. -/
def TessBuilder.set_indices {VData WData I : Type} (b : TessBuilder VData Unit WData)
    (indices : List I) : TessBuilder VData I WData where
  vertex_data := b.vertex_data
  index_data := indices
  instance_data := b.instance_data
  mode := b.mode
  render_vert_nb := b.render_vert_nb
  render_inst_nb := b.render_inst_nb
  restart_index := none

/-- `TessBuilder::set_vertices` (interleaved, only while the vertex type is
the unit marker): replaces the vertex set. -/
def TessBuilder.set_vertices {I WData V : Type} (b : TessBuilder (List Unit) I WData)
    (vertices : List V) : TessBuilder (List V) I WData where
  vertex_data := some vertices
  index_data := b.index_data
  instance_data := b.instance_data
  mode := b.mode
  render_vert_nb := b.render_vert_nb
  render_inst_nb := b.render_inst_nb
  restart_index := b.restart_index

/-- `TessBuilder::set_instances` (interleaved, only while the instance type
is the unit marker): replaces the instance set. -/
def TessBuilder.set_instances {VData I W : Type} (b : TessBuilder VData I (List Unit))
    (instances : List W) : TessBuilder VData I (List W) where
  vertex_data := b.vertex_data
  index_data := b.index_data
  instance_data := some instances
  mode := b.mode
  render_vert_nb := b.render_vert_nb
  render_inst_nb := b.render_inst_nb
  restart_index := b.restart_index

/-- `TessBuilder::set_attributes` (deinterleaved): writes one attribute
column at the field's rank; on first use allocates one empty column per
field of the vertex type. `nbFields` stands for `V::vertex_desc().len()`
and `rank` for `V::RANK`. -/
def TessBuilder.set_attributes {I WData : Type}
    (b : TessBuilder (List DeinterleavedData) I WData) (nbFields rank : Nat)
    (column : DeinterleavedData) : TessBuilder (List DeinterleavedData) I WData :=
  match b.vertex_data with
  | some deinterleaved =>
      { b with vertex_data := some (deinterleaved.set rank column) }
  | none =>
      { b with
        vertex_data := some ((List.replicate nbFields DeinterleavedData.new).set rank column) }

/-- `TessBuilder::set_instance_attributes` (deinterleaved): same as
`set_attributes`, on the instance stream. -/
def TessBuilder.set_instance_attributes {VData I : Type}
    (b : TessBuilder VData I (List DeinterleavedData)) (nbFields rank : Nat)
    (column : DeinterleavedData) : TessBuilder VData I (List DeinterleavedData) :=
  match b.instance_data with
  | some deinterleaved =>
      { b with instance_data := some (deinterleaved.set rank column) }
  | none =>
      { b with
        instance_data := some ((List.replicate nbFields DeinterleavedData.new).set rank column) }

/-- `TessBuilder::guess_render_vertex_len`: the default vertex render count.
`vcoh` is the storage's `V::coherent_len`. With no explicit count (zero),
infer from the index set if non-empty, else from the vertex set's coherent
length, `NoData` with neither; with an explicit count, check it against the
index length (if indices are present) or the coherent vertex length, and
accept it unconditionally on an attributeless builder. -/
def TessBuilder.guess_render_vertex_len {VData I WData : Type}
    (vcoh : VData → Except TessError Nat) (b : TessBuilder VData I WData) :
    Except TessError Nat :=
  if b.render_vert_nb = 0 then
    if b.index_data.isEmpty then
      match b.vertex_data with
      | some data => vcoh data
      | none => .error .NoData
    else
      .ok b.index_data.length
  else
    if b.index_data.isEmpty then
      match b.vertex_data with
      | some data =>
          match vcoh data with
          | .error e => .error e
          | .ok coherent_len =>
              if b.render_vert_nb ≤ coherent_len then
                .ok b.render_vert_nb
              else
                .error (.LengthIncoherency b.render_vert_nb)
      | none => .ok b.render_vert_nb
    else
      if b.render_vert_nb ≤ b.index_data.length then
        .ok b.render_vert_nb
      else
        .error (.LengthIncoherency b.render_vert_nb)

/-- `TessBuilder::guess_render_instance_len`: the default instance render
count. `wcoh` is the storage's `W::coherent_len`. With no explicit count
(zero), infer from the instance data, zero when absent; with an explicit
count, missing instance data is an `AttributelessError`, and present data
must have a coherent length at least the count. -/
def TessBuilder.guess_render_instance_len {VData I WData : Type}
    (wcoh : WData → Except TessError Nat) (b : TessBuilder VData I WData) :
    Except TessError Nat :=
  if b.render_inst_nb = 0 then
    match b.instance_data with
    | some data => wcoh data
    | none => .ok 0
  else
    match b.instance_data with
    | none => .error (.AttributelessError "missing number of instances")
    | some data =>
        match wcoh data with
        | .error e => .error e
        | .ok coherent_len =>
            if b.render_inst_nb ≤ coherent_len then
              .ok b.render_inst_nb
            else
              .error (.LengthIncoherency b.render_inst_nb)

/-- The built tessellation (`Tess` in tess.rs), reduced to the validated
default render counts; the backend representation is opaque and carried by
the abstracted backend. -/
structure Tess where
  render_vert_nb : Nat
  render_inst_nb : Nat
  deriving DecidableEq

/-- `Tess::render_vert_nb` accessor. -/
def Tess.render_vert_nb_get (t : Tess) : Nat :=
  t.render_vert_nb

/-- `Tess::render_inst_nb` accessor. -/
def Tess.render_inst_nb_get (t : Tess) : Nat :=
  t.render_inst_nb

/-- `TessBuilder::build`: validate (vertex count first, then instance
count), then hand the data to the backend's `build` primitive, abstracted
here as the `backendBuild` parameter; its success produces the `Tess` with
the two validated counts. -/
def TessBuilder.build {VData I WData : Type}
    (vcoh : VData → Except TessError Nat) (wcoh : WData → Except TessError Nat)
    (backendBuild : Option VData → List I → Option WData → Mode → Option I →
      Except TessError Unit)
    (b : TessBuilder VData I WData) : Except TessError Tess :=
  match b.guess_render_vertex_len vcoh with
  | .error e => .error e
  | .ok render_vert_nb =>
      match b.guess_render_instance_len wcoh with
      | .error e => .error e
      | .ok render_inst_nb =>
          match backendBuild b.vertex_data b.index_data b.instance_data b.mode
              b.restart_index with
          | .error e => .error e
          | .ok _ => .ok { render_vert_nb := render_vert_nb, render_inst_nb := render_inst_nb }

/-- A backend whose `build` primitive always succeeds, for concrete runs. -/
def okBackend (VData I WData : Type) :
    Option VData → List I → Option WData → Mode → Option I → Except TessError Unit :=
  fun _ _ _ _ _ => .ok ()

/-- Error raised by `TessView` constructors (`TessViewError` in tess.rs). -/
inductive TessViewError where
  | IncorrectViewWindow (capacity start nb : Nat)
  deriving DecidableEq

/-- A view into a `Tess` (`TessView` in tess.rs), reduced to its window: the
borrowed tessellation itself is implicit in how the view was produced. -/
structure TessView where
  start_index : Nat
  vert_nb : Nat
  inst_nb : Nat
  deriving DecidableEq

/-- `TessView::whole`. -/
def TessView.whole (tess : Tess) : TessView where
  start_index := 0
  vert_nb := tess.render_vert_nb
  inst_nb := tess.render_inst_nb

/-- `TessView::inst_whole`. -/
def TessView.inst_whole (tess : Tess) (inst_nb : Nat) : TessView where
  start_index := 0
  vert_nb := tess.render_vert_nb
  inst_nb := inst_nb

/-- `TessView::sub`: first `vert_nb` vertices, capacity is the default
vertex render count. -/
def TessView.sub (tess : Tess) (vert_nb : Nat) : Except TessViewError TessView :=
  let capacity := tess.render_vert_nb
  if vert_nb > capacity then
    .error (.IncorrectViewWindow capacity 0 vert_nb)
  else
    .ok { start_index := 0, vert_nb := vert_nb, inst_nb := tess.render_inst_nb }

/-- `TessView::inst_sub`. -/
def TessView.inst_sub (tess : Tess) (vert_nb inst_nb : Nat) :
    Except TessViewError TessView :=
  let capacity := tess.render_vert_nb
  if vert_nb > capacity then
    .error (.IncorrectViewWindow capacity 0 vert_nb)
  else
    .ok { start_index := 0, vert_nb := vert_nb, inst_nb := inst_nb }

/-- `TessView::slice`: `nb` vertices starting at `start`, capacity is the
default vertex render count. -/
def TessView.slice (tess : Tess) (start nb : Nat) : Except TessViewError TessView :=
  let capacity := tess.render_vert_nb
  if start > capacity || nb + start > capacity then
    .error (.IncorrectViewWindow capacity start nb)
  else
    .ok { start_index := start, vert_nb := nb, inst_nb := tess.render_inst_nb }

/-- `TessView::inst_slice`. -/
def TessView.inst_slice (tess : Tess) (start nb inst_nb : Nat) :
    Except TessViewError TessView :=
  let capacity := tess.render_vert_nb
  if start > capacity || nb + start > capacity then
    .error (.IncorrectViewWindow capacity start nb)
  else
    .ok { start_index := start, vert_nb := nb, inst_nb := inst_nb }

/-- `View<RangeFull>::view` (`tess.view(..)`). -/
def Tess.view_full (tess : Tess) : Except TessViewError TessView :=
  .ok (TessView.whole tess)

/-- `View<RangeTo<usize>>::view` (`tess.view(..b)`). -/
def Tess.view_to (tess : Tess) (e : Nat) : Except TessViewError TessView :=
  TessView.sub tess e

/-- `View<RangeFrom<usize>>::view` (`tess.view(a..)`); the source computes
`render_vert_nb() - a` in `usize`, faithful here for `a ≤ render_vert_nb`
(beyond that the source arithmetic underflows). -/
def Tess.view_from (tess : Tess) (s : Nat) : Except TessViewError TessView :=
  TessView.slice tess s (tess.render_vert_nb - s)

/-- `View<Range<usize>>::view` (`tess.view(a..b)`); the source computes
`b - a` in `usize`, faithful here for `a ≤ b`. -/
def Tess.view_range (tess : Tess) (s e : Nat) : Except TessViewError TessView :=
  TessView.slice tess s (e - s)

/-- `View<RangeInclusive<usize>>::view` (`tess.view(a..=b)`). -/
def Tess.view_range_inclusive (tess : Tess) (s e : Nat) : Except TessViewError TessView :=
  TessView.slice tess s (e - s + 1)

/-- `View<RangeToInclusive<usize>>::view` (`tess.view(..=b)`). -/
def Tess.view_to_inclusive (tess : Tess) (e : Nat) : Except TessViewError TessView :=
  TessView.sub tess (e + 1)

/-- Backend calls issued during one render pass, in order of issue. -/
inductive GateEvent where
  | beginPass
  | bindProgram
  | applyRenderState
  | draw
  deriving DecidableEq

/-- A gate-protocol computation: threads the log of backend calls issued so
far and produces the enclosing closure's result. -/
def GateComp (E : Type) : Type :=
  List GateEvent → List GateEvent × Except E Unit

/-- Modelled from the spec: the Tess Gate draw call (tess_gate.rs is not
under src/): it issues the backend draw call for the given view, whose
outcome is `drawResult`, and hands that outcome to the enclosing closure. -/
def tess_gate_draw {E : Type} (drawResult : Except E Unit) : GateComp E :=
  fun log => (log ++ [GateEvent.draw], drawResult)

/-- Modelled from the spec: `RenderGate::render` (render_gate.rs is not
under src/): issues the backend "apply render state" call, then runs the
callback with a Tess Gate and returns its result verbatim. -/
def render_gate_render {E : Type} (f : GateComp E) : GateComp E :=
  fun log => f (log ++ [GateEvent.applyRenderState])

/-- `ShadingGate::shade` (shading_gate.rs): issues the backend
`apply_shader_program` call, then runs the callback with a Render Gate and
returns its result verbatim. -/
def shading_gate_shade {E : Type} (f : GateComp E) : GateComp E :=
  fun log => f (log ++ [GateEvent.bindProgram])

/-- Modelled from the spec: `Context::with_framebuffer` (context.rs)
delegates wholesale to the backend (and pipeline.rs's `PipelineGate` is
commented out in the source): the backend begins the pass against the
framebuffer, then runs the callback with a Shading Gate and yields its
result as the single result of the entry call. -/
def with_framebuffer {E : Type} (f : GateComp E) : GateComp E :=
  fun log => f (log ++ [GateEvent.beginPass])

/-- Sequencing of two steps inside a gate callback (the callers' `?`
operator): the second computation runs only when the first returned Ok. -/
def gate_seq {E : Type} (first rest : GateComp E) : GateComp E :=
  fun log =>
    match first log with
    | (log2, .ok _) => rest log2
    | (log2, .error e) => (log2, .error e)

/-- Modelled from the spec: one buffer of backend-owned storage as mapped by
the slice views (`Tess::vertices`/`vertices_mut`, `indices`/`indices_mut`,
`instances`/`instances_mut` and their Deref/DerefMut impls expose backend
memory as a slice; the backend slice representation is not under src/). -/
structure MappedStorage (T : Type) where
  content : List T

/-- Modelled from the spec: reading `n` elements starting at `start` through
a (fresh) view; reading leaves the storage untouched. -/
def read_range {T : Type} (st : MappedStorage T) (start n : Nat) :
    List T × MappedStorage T :=
  ((st.content.drop start).take n, st)

/-- Modelled from the spec: writing the sequence `xs` at `start` through a
mutable view; the surrounding elements are preserved and the buffer never
resizes. -/
def write_range {T : Type} (st : MappedStorage T) (start : Nat) (xs : List T) :
    MappedStorage T :=
  { content := st.content.take start ++ (xs ++ st.content.drop (start + xs.length)) }

/-- A builder holding three interleaved vertices and nothing else (the
spec's triangle-mode example `[p0, p1, p2]`). -/
def builder3 : TessBuilder (List Nat) Unit (List Unit) :=
  ((TessBuilder.new (List Unit) Unit (List Unit)).set_vertices [10, 11, 12]).set_mode .Triangle

/-- A builder holding five interleaved vertices and an explicit render
vertex count of two. -/
def builder5_explicit2 : TessBuilder (List Nat) Unit (List Unit) :=
  ((TessBuilder.new (List Unit) Unit (List Unit)).set_vertices
      [10, 11, 12, 13, 14]).set_render_vertex_nb 2

/-- A deinterleaved builder whose two vertex columns have element counts 1
and 2 (incoherent), together with a one-element index set. -/
def builder_incoherent_indexed : TessBuilder (List DeinterleavedData) Nat (List DeinterleavedData) :=
  ((((TessBuilder.new (List DeinterleavedData) Unit (List DeinterleavedData)).set_attributes 2 0
      { raw := [0], len := 1 }).set_attributes 2 1
      { raw := [0, 0], len := 2 }).set_indices [0])

/-- Helper: `TessView::slice` as a single conditional on the window bounds. -/
theorem slice_spec (t : Tess) (start n : Nat) :
    TessView.slice t start n =
      if start ≤ t.render_vert_nb ∧ start + n ≤ t.render_vert_nb then
        .ok { start_index := start, vert_nb := n, inst_nb := t.render_inst_nb }
      else
        .error (.IncorrectViewWindow t.render_vert_nb start n) := by
  unfold TessView.slice
  split
  · rename_i h
    simp only [Bool.or_eq_true, decide_eq_true_eq]
    rw [if_neg (by omega)]
  · rename_i h
    simp only [Bool.or_eq_true, decide_eq_true_eq]
    rw [if_pos (by omega)]

/-- Helper: `TessView::sub` as a single conditional on the window bound. -/
theorem sub_spec (t : Tess) (n : Nat) :
    TessView.sub t n =
      if n ≤ t.render_vert_nb then
        .ok { start_index := 0, vert_nb := n, inst_nb := t.render_inst_nb }
      else
        .error (.IncorrectViewWindow t.render_vert_nb 0 n) := by
  unfold TessView.sub
  split
  · rename_i h
    rw [if_neg (by omega)]
  · rename_i h
    rw [if_pos (by omega)]

/-- Helper: a deinterleaved set whose tail holds a column disagreeing with
the first column has no coherent length; the reported length is the first
column's. -/
theorem deinterleaved_coherent_len_error (d : DeinterleavedData)
    (rest : List DeinterleavedData) (h : ∃ a ∈ rest, a.len ≠ d.len) :
    Deinterleaved.coherent_len (d :: rest) = .error (.LengthIncoherency d.len) := by
  show (if (rest.any fun a => a.len != d.len) = true then
      (Except.error (TessError.LengthIncoherency d.len) : Except TessError Nat)
    else Except.ok d.len) = Except.error (TessError.LengthIncoherency d.len)
  rw [if_pos]
  rw [List.any_eq_true]
  obtain ⟨a, ha, hne⟩ := h
  exact ⟨a, ha, by simpa using hne⟩

/-- Helper: a deinterleaved set whose columns all agree with the first
column has that common element count as coherent length. -/
theorem deinterleaved_coherent_len_ok (d : DeinterleavedData)
    (rest : List DeinterleavedData) (h : ∀ a ∈ rest, a.len = d.len) :
    Deinterleaved.coherent_len (d :: rest) = .ok d.len := by
  show (if (rest.any fun a => a.len != d.len) = true then
      (Except.error (TessError.LengthIncoherency d.len) : Except TessError Nat)
    else Except.ok d.len) = Except.ok d.len
  rw [if_neg]
  simp only [List.any_eq_true, bne_iff_ne, ne_eq, not_exists]
  intro a hc
  exact hc.2 (h a hc.1)

/-- C1: the default vertex render count computed by `build`. With no explicit
count it is the index set's length when indices are present, else the vertex
set's coherent length, and `NoData` when there is neither vertex data nor an
explicit count nor indices; an explicit positive count `k` is accepted (and
reported by `build`) exactly when `k` is at most the index set's length when
indices are present, else the coherent vertex length, and it is accepted
unconditionally on an attributeless builder (no vertex data, no indices);
over-large explicit counts fail with `LengthIncoherency k`. `build` reports
exactly the guessed count and propagates exactly its errors. -/
theorem c1_default_vertex_render_count {VData I WData : Type}
    (vcoh : VData → Except TessError Nat) (wcoh : WData → Except TessError Nat)
    (backendBuild : Option VData → List I → Option WData → Mode → Option I →
      Except TessError Unit)
    (b : TessBuilder VData I WData) (data : VData) (cl : Nat) :
    (b.render_vert_nb = 0 → b.index_data ≠ [] →
      b.guess_render_vertex_len vcoh = .ok b.index_data.length) ∧
    (b.render_vert_nb = 0 → b.index_data = [] → b.vertex_data = some data →
      b.guess_render_vertex_len vcoh = vcoh data) ∧
    (b.render_vert_nb = 0 → b.index_data = [] → b.vertex_data = none →
      b.guess_render_vertex_len vcoh = .error .NoData ∧
      b.build vcoh wcoh backendBuild = .error .NoData) ∧
    (0 < b.render_vert_nb → b.index_data ≠ [] →
      b.render_vert_nb ≤ b.index_data.length →
      b.guess_render_vertex_len vcoh = .ok b.render_vert_nb) ∧
    (0 < b.render_vert_nb → b.index_data ≠ [] →
      b.index_data.length < b.render_vert_nb →
      b.guess_render_vertex_len vcoh = .error (.LengthIncoherency b.render_vert_nb)) ∧
    (0 < b.render_vert_nb → b.index_data = [] → b.vertex_data = some data →
      vcoh data = .ok cl → b.render_vert_nb ≤ cl →
      b.guess_render_vertex_len vcoh = .ok b.render_vert_nb) ∧
    (0 < b.render_vert_nb → b.index_data = [] → b.vertex_data = some data →
      vcoh data = .ok cl → cl < b.render_vert_nb →
      b.guess_render_vertex_len vcoh = .error (.LengthIncoherency b.render_vert_nb)) ∧
    (0 < b.render_vert_nb → b.index_data = [] → b.vertex_data = none →
      b.guess_render_vertex_len vcoh = .ok b.render_vert_nb) ∧
    (∀ t, b.build vcoh wcoh backendBuild = .ok t →
      b.guess_render_vertex_len vcoh = .ok t.render_vert_nb) ∧
    (∀ e, b.guess_render_vertex_len vcoh = .error e →
      b.build vcoh wcoh backendBuild = .error e) := by
  refine ⟨?_, ?_, ?_, ?_, ?_, ?_, ?_, ?_, ?_, ?_⟩
  · intro h0 hne
    simp [TessBuilder.guess_render_vertex_len, h0, hne]
  · intro h0 hemp hv
    simp [TessBuilder.guess_render_vertex_len, h0, hemp, hv]
  · intro h0 hemp hv
    constructor
    · simp [TessBuilder.guess_render_vertex_len, h0, hemp, hv]
    · unfold TessBuilder.build
      rw [show b.guess_render_vertex_len vcoh = .error .NoData by
        simp [TessBuilder.guess_render_vertex_len, h0, hemp, hv]]
  · intro h0 hne hle
    have hk : ¬ b.render_vert_nb = 0 := by omega
    simp [TessBuilder.guess_render_vertex_len, hk, hne, hle]
  · intro h0 hne hlt
    have hk : ¬ b.render_vert_nb = 0 := by omega
    have hgt : ¬ b.render_vert_nb ≤ b.index_data.length := by omega
    simp [TessBuilder.guess_render_vertex_len, hk, hne, hgt]
  · intro h0 hemp hv hc hle
    have hk : ¬ b.render_vert_nb = 0 := by omega
    simp [TessBuilder.guess_render_vertex_len, hk, hemp, hv, hc, hle]
  · intro h0 hemp hv hc hlt
    have hk : ¬ b.render_vert_nb = 0 := by omega
    have hgt : ¬ b.render_vert_nb ≤ cl := by omega
    simp [TessBuilder.guess_render_vertex_len, hk, hemp, hv, hc, hgt]
  · intro h0 hemp hv
    have hk : ¬ b.render_vert_nb = 0 := by omega
    simp [TessBuilder.guess_render_vertex_len, hk, hemp, hv]
  · intro t ht
    unfold TessBuilder.build at ht
    cases hg : b.guess_render_vertex_len vcoh with
    | error e =>
        rw [hg] at ht
        exact absurd ht (by simp)
    | ok m =>
        rw [hg] at ht
        cases hi : b.guess_render_instance_len wcoh with
        | error e =>
            rw [hi] at ht
            exact absurd ht (by simp)
        | ok mi =>
            rw [hi] at ht
            cases hb : backendBuild b.vertex_data b.index_data b.instance_data b.mode
                b.restart_index with
            | error e =>
                rw [hb] at ht
                exact absurd ht (by simp)
            | ok u =>
                rw [hb] at ht
                simp only [Except.ok.injEq] at ht
                subst ht
                rfl
  · intro e he
    unfold TessBuilder.build
    rw [he]

/-- C2: for a Tess with default vertex render count `c`, `TessView::slice
start n` returns Ok with `start_index = start` and `vert_nb = n` exactly
when `start ≤ c` and `start + n ≤ c`, and otherwise
`IncorrectViewWindow {capacity := c, start, nb := n}`; `TessView::sub n`
returns Ok with window `(0, n)` when `n ≤ c` and the incorrect-window error
when `n > c`. The capacity checked is the default vertex render count, not
the raw storage length: the Tess built from five vertices with explicit
render count two has capacity two and rejects a five-element window. -/
theorem c2_slice_sub_window (t : Tess) (start n : Nat) :
    (TessView.slice t start n =
        .ok { start_index := start, vert_nb := n, inst_nb := t.render_inst_nb } ↔
      start ≤ t.render_vert_nb ∧ start + n ≤ t.render_vert_nb) ∧
    (¬(start ≤ t.render_vert_nb ∧ start + n ≤ t.render_vert_nb) →
      TessView.slice t start n =
        .error (.IncorrectViewWindow t.render_vert_nb start n)) ∧
    (n ≤ t.render_vert_nb →
      TessView.sub t n =
        .ok { start_index := 0, vert_nb := n, inst_nb := t.render_inst_nb }) ∧
    (t.render_vert_nb < n →
      TessView.sub t n = .error (.IncorrectViewWindow t.render_vert_nb 0 n)) ∧
    builder5_explicit2.build Interleaved.coherent_len Interleaved.coherent_len
        (okBackend (List Nat) Unit (List Unit)) =
      .ok { render_vert_nb := 2, render_inst_nb := 0 } ∧
    TessView.slice { render_vert_nb := 2, render_inst_nb := 0 } 0 5 =
      .error (.IncorrectViewWindow 2 0 5) := by
  refine ⟨?_, ?_, ?_, ?_, rfl, rfl⟩
  · rw [slice_spec]
    constructor
    · intro h
      by_contra hc
      rw [if_neg hc] at h
      exact absurd h (by simp)
    · intro h
      rw [if_pos h]
  · intro h
    rw [slice_spec, if_neg h]
  · intro h
    rw [sub_spec, if_pos h]
  · intro h
    rw [sub_spec, if_neg (by omega)]

/-- C3: the range-operator view constructors map onto the explicit
constructors with bound arithmetic: `view(..)` is `whole`, `view(a..b)` is
`slice a (b - a)`, `view(..b)` is `sub b`, `view(a..)` is
`slice a (c - a)` with `c` the default vertex render count, and the
inclusive-end forms add one to the window length. On the Tess built from
three vertices with no indices and no explicit count, `view(1..3)` yields
window `(start 1, nb 2)` and `view(0..5)` yields
`IncorrectViewWindow {capacity 3, start 0, nb 5}`. -/
theorem c3_range_sugar (t : Tess) (a b : Nat) :
    t.view_full = .ok (TessView.whole t) ∧
    (a ≤ b → t.view_range a b = TessView.slice t a (b - a)) ∧
    t.view_to b = TessView.sub t b ∧
    (a ≤ t.render_vert_nb →
      t.view_from a = TessView.slice t a (t.render_vert_nb - a)) ∧
    (a ≤ b → t.view_range_inclusive a b = TessView.slice t a (b - a + 1)) ∧
    t.view_to_inclusive b = TessView.sub t (b + 1) ∧
    (∀ t3, builder3.build Interleaved.coherent_len Interleaved.coherent_len
        (okBackend (List Nat) Unit (List Unit)) = .ok t3 →
      t3.view_range 1 3 = .ok { start_index := 1, vert_nb := 2, inst_nb := 0 } ∧
      t3.view_range 0 5 = .error (.IncorrectViewWindow 3 0 5)) := by
  refine ⟨rfl, fun _ => rfl, rfl, fun _ => rfl, fun _ => rfl, rfl, ?_⟩
  intro t3 h
  have h0 : builder3.build Interleaved.coherent_len Interleaved.coherent_len
      (okBackend (List Nat) Unit (List Unit)) =
      (.ok { render_vert_nb := 3, render_inst_nb := 0 } : Except TessError Tess) := rfl
  rw [h0] at h
  injection h with h3
  subst h3
  exact ⟨rfl, rfl⟩

/-- C4, counterexample: a deinterleaved builder whose two vertex columns
have element counts 1 and 2 (so `coherent_len` rejects the set with
`LengthIncoherency 1`) but which also carries a one-element index set
builds successfully, refuting the claim that an incoherent deinterleaved
vertex set always makes `build` fail. -/
theorem c4_counterexample :
    builder_incoherent_indexed.vertex_data =
      some [{ raw := [0], len := 1 }, { raw := [0, 0], len := 2 }] ∧
    Deinterleaved.coherent_len [{ raw := [0], len := 1 }, { raw := [0, 0], len := 2 }] =
      .error (.LengthIncoherency 1) ∧
    builder_incoherent_indexed.build Deinterleaved.coherent_len Deinterleaved.coherent_len
        (okBackend (List DeinterleavedData) Nat (List DeinterleavedData)) =
      .ok { render_vert_nb := 1, render_inst_nb := 0 } :=
  ⟨rfl, rfl, rfl⟩

/-- C4, amended: a deinterleaved set with a column disagreeing with the
first column has no coherent length and reports `LengthIncoherency` with
the first column's length; with equal columns the coherent length is the
common count. An incoherent vertex set makes `build` fail with that error
whenever the index set is empty (with indices present the vertex columns
are not consulted, as the counterexample shows); an incoherent instance
set always makes `build` fail once the vertex count is computed. Both
failures are independent of the backend, hence precede any backend
allocation. -/
theorem c4_deinterleaved_coherency {VData I WData : Type}
    (vcoh : VData → Except TessError Nat) (wcoh : WData → Except TessError Nat)
    (backendBuildV : Option (List DeinterleavedData) → List I → Option WData → Mode →
      Option I → Except TessError Unit)
    (backendBuildW : Option VData → List I → Option (List DeinterleavedData) → Mode →
      Option I → Except TessError Unit)
    (bv : TessBuilder (List DeinterleavedData) I WData)
    (bw : TessBuilder VData I (List DeinterleavedData))
    (d : DeinterleavedData) (rest : List DeinterleavedData) :
    ((∃ a ∈ rest, a.len ≠ d.len) →
      Deinterleaved.coherent_len (d :: rest) = .error (.LengthIncoherency d.len)) ∧
    ((∀ a ∈ rest, a.len = d.len) →
      Deinterleaved.coherent_len (d :: rest) = .ok d.len) ∧
    (bv.index_data = [] → bv.vertex_data = some (d :: rest) →
      (∃ a ∈ rest, a.len ≠ d.len) →
      bv.build Deinterleaved.coherent_len wcoh backendBuildV =
        .error (.LengthIncoherency d.len)) ∧
    (∀ m, bw.guess_render_vertex_len vcoh = .ok m →
      bw.instance_data = some (d :: rest) →
      (∃ a ∈ rest, a.len ≠ d.len) →
      bw.build vcoh Deinterleaved.coherent_len backendBuildW =
        .error (.LengthIncoherency d.len)) := by
  refine ⟨deinterleaved_coherent_len_error d rest, deinterleaved_coherent_len_ok d rest,
    ?_, ?_⟩
  · intro hemp hv hex
    have hc := deinterleaved_coherent_len_error d rest hex
    have hg : bv.guess_render_vertex_len Deinterleaved.coherent_len =
        .error (.LengthIncoherency d.len) := by
      unfold TessBuilder.guess_render_vertex_len
      by_cases h0 : bv.render_vert_nb = 0
      · simp [h0, hemp, hv, hc]
      · simp [h0, hemp, hv, hc]
    unfold TessBuilder.build
    rw [hg]
  · intro m hm hw hex
    have hc := deinterleaved_coherent_len_error d rest hex
    have hi : bw.guess_render_instance_len Deinterleaved.coherent_len =
        .error (.LengthIncoherency d.len) := by
      unfold TessBuilder.guess_render_instance_len
      by_cases h0 : bw.render_inst_nb = 0
      · simp [h0, hw, hc]
      · simp [h0, hw, hc]
    unfold TessBuilder.build
    rw [hm, hi]

/-- C5: the default instance render count is computed symmetrically to the
vertex count: with no explicit count and no instance data the count is zero
(a non-instanced Tess, never an error — any successfully built Tess without
instance data reports zero instances); an explicit positive count with no
instance data makes `build` fail with `AttributelessError`; an explicit
positive count with instance data of coherent length `cl` is accepted
exactly when it is at most `cl`, failing with `LengthIncoherency`
otherwise. `build` reports exactly the guessed instance count. -/
theorem c5_default_instance_render_count {VData I WData : Type}
    (vcoh : VData → Except TessError Nat) (wcoh : WData → Except TessError Nat)
    (backendBuild : Option VData → List I → Option WData → Mode → Option I →
      Except TessError Unit)
    (b : TessBuilder VData I WData) (data : WData) (cl : Nat) :
    (b.render_inst_nb = 0 → b.instance_data = none →
      b.guess_render_instance_len wcoh = .ok 0) ∧
    (∀ t, b.build vcoh wcoh backendBuild = .ok t → b.instance_data = none →
      t.render_inst_nb = 0) ∧
    (0 < b.render_inst_nb → b.instance_data = none →
      b.guess_render_instance_len wcoh =
        .error (.AttributelessError "missing number of instances")) ∧
    (0 < b.render_inst_nb → b.instance_data = none → ∀ m,
      b.guess_render_vertex_len vcoh = .ok m →
      b.build vcoh wcoh backendBuild =
        .error (.AttributelessError "missing number of instances")) ∧
    (0 < b.render_inst_nb → b.instance_data = some data → wcoh data = .ok cl →
      b.render_inst_nb ≤ cl →
      b.guess_render_instance_len wcoh = .ok b.render_inst_nb) ∧
    (0 < b.render_inst_nb → b.instance_data = some data → wcoh data = .ok cl →
      cl < b.render_inst_nb →
      b.guess_render_instance_len wcoh =
        .error (.LengthIncoherency b.render_inst_nb)) ∧
    (∀ t, b.build vcoh wcoh backendBuild = .ok t →
      b.guess_render_instance_len wcoh = .ok t.render_inst_nb) := by
  refine ⟨?_, ?_, ?_, ?_, ?_, ?_, ?_⟩
  · intro h0 hnone
    simp [TessBuilder.guess_render_instance_len, h0, hnone]
  · intro t ht hnone
    unfold TessBuilder.build at ht
    cases hg : b.guess_render_vertex_len vcoh with
    | error e =>
        rw [hg] at ht
        exact absurd ht (by simp)
    | ok m =>
        rw [hg] at ht
        cases hi : b.guess_render_instance_len wcoh with
        | error e =>
            rw [hi] at ht
            exact absurd ht (by simp)
        | ok mi =>
            rw [hi] at ht
            cases hb : backendBuild b.vertex_data b.index_data b.instance_data b.mode
                b.restart_index with
            | error e =>
                rw [hb] at ht
                exact absurd ht (by simp)
            | ok u =>
                rw [hb] at ht
                simp only [Except.ok.injEq] at ht
                subst ht
                simp [TessBuilder.guess_render_instance_len, hnone] at hi
                split at hi
                · simp only [Except.ok.injEq] at hi
                  exact hi.symm
                · exact absurd hi (by simp)
  · intro h0 hnone
    have hk : ¬ b.render_inst_nb = 0 := by omega
    simp [TessBuilder.guess_render_instance_len, hk, hnone]
  · intro h0 hnone m hm
    have hk : ¬ b.render_inst_nb = 0 := by omega
    have hi : b.guess_render_instance_len wcoh =
        .error (.AttributelessError "missing number of instances") := by
      simp [TessBuilder.guess_render_instance_len, hk, hnone]
    unfold TessBuilder.build
    rw [hm, hi]
  · intro h0 hsome hc hle
    have hk : ¬ b.render_inst_nb = 0 := by omega
    simp [TessBuilder.guess_render_instance_len, hk, hsome, hc, hle]
  · intro h0 hsome hc hlt
    have hk : ¬ b.render_inst_nb = 0 := by omega
    have hgt : ¬ b.render_inst_nb ≤ cl := by omega
    simp [TessBuilder.guess_render_instance_len, hk, hsome, hc, hgt]
  · intro t ht
    unfold TessBuilder.build at ht
    cases hg : b.guess_render_vertex_len vcoh with
    | error e =>
        rw [hg] at ht
        exact absurd ht (by simp)
    | ok m =>
        rw [hg] at ht
        cases hi : b.guess_render_instance_len wcoh with
        | error e =>
            rw [hi] at ht
            exact absurd ht (by simp)
        | ok mi =>
            rw [hi] at ht
            cases hb : backendBuild b.vertex_data b.index_data b.instance_data b.mode
                b.restart_index with
            | error e =>
                rw [hb] at ht
                exact absurd ht (by simp)
            | ok u =>
                rw [hb] at ht
                simp only [Except.ok.injEq] at ht
                subst ht
                rfl

/-- C6: an error produced by the Tess Gate draw call propagates unchanged
through the Render Gate, the Shading Gate and the framebuffer entry call as
the single result of the pass, the remaining nested scopes (`rest` inside
the render-state scope, `rest2` at the shading level) are skipped, and no
backend call after the failing draw is issued: the final log ends at the
draw event, independently of the skipped continuations. -/
theorem c6_error_propagation {E : Type} (e : E) (rest rest2 : GateComp E)
    (log : List GateEvent) :
    with_framebuffer (shading_gate_shade (render_gate_render
        (gate_seq (tess_gate_draw (Except.error e)) rest))) log =
      (log ++ [GateEvent.beginPass, GateEvent.bindProgram,
        GateEvent.applyRenderState, GateEvent.draw], Except.error e) ∧
    with_framebuffer (shading_gate_shade (gate_seq (render_gate_render
        (gate_seq (tess_gate_draw (Except.error e)) rest)) rest2)) log =
      (log ++ [GateEvent.beginPass, GateEvent.bindProgram,
        GateEvent.applyRenderState, GateEvent.draw], Except.error e) := by
  constructor <;>
    simp [with_framebuffer, shading_gate_shade, render_gate_render, gate_seq,
      tess_gate_draw]

/-- C8: writing a value sequence through a mutable slice view and re-reading
the same range through a fresh view of the same storage yields the identical
sequence; reading never modifies the storage, so repeated reads yield the
same sequence; concretely, writing `[9, 8]` at offset 1 of `[1, 2, 3, 4]`
and re-reading two elements at offset 1 yields `[9, 8]`. -/
theorem c8_round_trip {T : Type} (st st2 : MappedStorage T) (s2 n2 start : Nat)
    (xs : List T) :
    (start + xs.length ≤ st.content.length →
      (read_range (write_range st start xs) start xs.length).1 = xs) ∧
    (read_range st2 s2 n2).2 = st2 ∧
    (read_range (read_range st2 s2 n2).2 s2 n2).1 = (read_range st2 s2 n2).1 ∧
    (read_range (write_range ({ content := [1, 2, 3, 4] } : MappedStorage Nat) 1 [9, 8])
        1 2).1 = [9, 8] := by
  refine ⟨?_, rfl, rfl, rfl⟩
  intro h
  unfold read_range write_range
  have hl : (st.content.take start).length = start := by
    rw [List.length_take]
    omega
  simp only [List.drop_left' hl, List.take_left]

/-- C9: an explicit render count of zero is the inference case: zeroing the
vertex count on a builder (or never setting it — the fresh builder already
holds zero) with no vertex data and no indices makes `build` fail with
`NoData`, whereas any positive explicit count would be accepted
unconditionally there; a zero instance count with no instance data infers
zero instances (and every Tess built that way is non-instanced), whereas a
positive explicit instance count without instance data is an
`AttributelessError`. -/
theorem c9_zero_count_is_unset {VData I WData : Type}
    (vcoh : VData → Except TessError Nat) (wcoh : WData → Except TessError Nat)
    (backendBuild : Option VData → List I → Option WData → Mode → Option I →
      Except TessError Unit)
    (b : TessBuilder VData I WData) (k : Nat) :
    (TessBuilder.new VData I WData).set_render_vertex_nb 0 = TessBuilder.new VData I WData ∧
    (TessBuilder.new VData I WData).set_render_instance_nb 0 = TessBuilder.new VData I WData ∧
    b.set_render_vertex_nb 0 = { b with render_vert_nb := 0 } ∧
    b.set_render_instance_nb 0 = { b with render_inst_nb := 0 } ∧
    (b.vertex_data = none → b.index_data = [] →
      (b.set_render_vertex_nb 0).guess_render_vertex_len vcoh = .error .NoData ∧
      (b.set_render_vertex_nb 0).build vcoh wcoh backendBuild = .error .NoData) ∧
    (0 < k → b.vertex_data = none → b.index_data = [] →
      (b.set_render_vertex_nb k).guess_render_vertex_len vcoh = .ok k) ∧
    (b.instance_data = none →
      (b.set_render_instance_nb 0).guess_render_instance_len wcoh = .ok 0) ∧
    (0 < k → b.instance_data = none →
      (b.set_render_instance_nb k).guess_render_instance_len wcoh =
        .error (.AttributelessError "missing number of instances")) ∧
    (b.instance_data = none → ∀ t,
      (b.set_render_instance_nb 0).build vcoh wcoh backendBuild = .ok t →
      t.render_inst_nb = 0) := by
  refine ⟨rfl, rfl, rfl, rfl, ?_, ?_, ?_, ?_, ?_⟩
  · intro hv hemp
    have hg : (b.set_render_vertex_nb 0).guess_render_vertex_len vcoh = .error .NoData := by
      simp [TessBuilder.guess_render_vertex_len, TessBuilder.set_render_vertex_nb, hv, hemp]
    refine ⟨hg, ?_⟩
    unfold TessBuilder.build
    rw [hg]
  · intro h0 hv hemp
    have hk : ¬ k = 0 := by omega
    simp [TessBuilder.guess_render_vertex_len, TessBuilder.set_render_vertex_nb, hk, hv, hemp]
  · intro hnone
    simp [TessBuilder.guess_render_instance_len, TessBuilder.set_render_instance_nb, hnone]
  · intro h0 hnone
    have hk : ¬ k = 0 := by omega
    simp [TessBuilder.guess_render_instance_len, TessBuilder.set_render_instance_nb, hk, hnone]
  · intro hnone t ht
    unfold TessBuilder.build at ht
    cases hg : (b.set_render_instance_nb 0).guess_render_vertex_len vcoh with
    | error e =>
        rw [hg] at ht
        exact absurd ht (by simp)
    | ok m =>
        rw [hg] at ht
        have hi : (b.set_render_instance_nb 0).guess_render_instance_len wcoh = .ok 0 := by
          simp [TessBuilder.guess_render_instance_len, TessBuilder.set_render_instance_nb, hnone]
        rw [hi] at ht
        cases hb : backendBuild (b.set_render_instance_nb 0).vertex_data
            (b.set_render_instance_nb 0).index_data (b.set_render_instance_nb 0).instance_data
            (b.set_render_instance_nb 0).mode (b.set_render_instance_nb 0).restart_index with
        | error e =>
            rw [hb] at ht
            exact absurd ht (by simp)
        | ok u =>
            rw [hb] at ht
            simp only [Except.ok.injEq] at ht
            subst ht
            rfl

/-- C10: `set_indices` carries over the vertex data, instance data, mode
and both render counts unchanged, installs the given index set, and always
resets the primitive-restart index to unset — also when one was set earlier
in the chain; a restart index survives to `build` only when
`set_primitive_restart_index` is called after `set_indices`. -/
theorem c10_set_indices_resets_restart {VData WData I : Type}
    (b : TessBuilder VData Unit WData) (idx : List I) (i : I) (j : Unit) :
    (b.set_indices idx).vertex_data = b.vertex_data ∧
    (b.set_indices idx).instance_data = b.instance_data ∧
    (b.set_indices idx).mode = b.mode ∧
    (b.set_indices idx).render_vert_nb = b.render_vert_nb ∧
    (b.set_indices idx).render_inst_nb = b.render_inst_nb ∧
    (b.set_indices idx).index_data = idx ∧
    (b.set_indices idx).restart_index = none ∧
    ((b.set_primitive_restart_index j).set_indices idx).restart_index = none ∧
    ((b.set_indices idx).set_primitive_restart_index i).restart_index = some i :=
  ⟨rfl, rfl, rfl, rfl, rfl, rfl, rfl, rfl, rfl⟩

end Luminance
